import Mathlib

/-!
Shallow embedding of `src/prometheus_remediation/job_runner.py` and proofs
about its behaviour.

The module defines a single alert-response action, `run_job_from_alert`,
built from:
  * `JobParams` — the pydantic parameter class (fields with their defaults);
  * `__get_alert_env_vars` — builds the environment list for the job
    container from the alert event and the params (here `get_alert_env_vars`);
  * the action body — builds a `Job` value, creates it on the platform,
    optionally emits a "created" notification, and optionally waits for
    completion and reports logs / a timeout diagnostic.

Effectful steps (platform calls, enrichments, log lines, prints) are
modelled as an explicit trace of `Effect`s, and the platform's responses are
an input (`Platform`).  Exceptions carry a class name and a message
(`PyExn`), since the handler in the source inspects `str(e)`.

The external naming utility `to_kubernetes_name` is a collaborator outside
this repository; the embedding is parameterised over it (`sanitize`).
-/

/-- hikaru `EnvVar`: a name and an optional string value. -/
structure EnvVar where
  name : String
  value : Option String
deriving DecidableEq, Repr

/-- The alert subject returned by `event.get_alert_subject()`: subject
type (its `.value`, which may be `None` for an unknown kind), name,
optional namespace and optional node. -/
structure AlertSubject where
  subject_type_value : Option String
  name : Option String
  «namespace» : Option String
  node : Option String
deriving DecidableEq, Repr

/-- The fields of `event.alert` that the code reads: `status` and the
label mapping.  The unordered `labels` dict is modelled as the sequence of
its (key, value) pairs in iteration order. -/
structure Alert where
  status : String
  labels : List (String × String)
deriving DecidableEq, Repr

/-- The fields of the `PrometheusKubernetesAlert` event that the code
reads.  `get_alert_subject` is the (pure) result of
`event.get_alert_subject()`. -/
structure PrometheusKubernetesAlert where
  alert_name : String
  alert : Alert
  get_alert_subject : AlertSubject
deriving DecidableEq, Repr

/-- `JobParams(ActionParams)` with the defaults declared in the source.
`service_account`, `backoff_limit` and `active_deadline_seconds` default to
`None`; `env_vars: Optional[List[EnvVar]] = None`. -/
structure JobParams where
  image : String
  command : List String
  name : String := "robusta-action-job"
  «namespace» : String := "default"
  service_account : Option String := none
  restart_policy : String := "OnFailure"
  job_ttl_after_finished : Int := 120
  notify : Bool := false
  wait_for_completion : Bool := true
  completion_timeout : Int := 300
  backoff_limit : Option Int := none
  active_deadline_seconds : Option Int := none
  env_vars : Option (List EnvVar) := none
deriving DecidableEq, Repr

/-- Modelled from the spec: the source condition reads `params.env_var`,
which is not a declared field of `JobParams` (the declared field is
`env_vars`); the pydantic attribute-lookup semantics that decides this lies
outside this repository.  Per the spec (§9) the attribute-name mismatch is
a latent defect causing "silent failure to ever append custom vars", i.e.
the lookup never yields a value, so we model the nonexistent attribute as
`none`. -/
def JobParams.env_var (_ : JobParams) : Option (List EnvVar) := none

/-- Python `str.upper()` (ASCII case mapping), character by character.  A
char-list map is used rather than `String.map` so that concrete instances
evaluate by kernel reduction. -/
def pyUpper (s : String) : String := ⟨s.data.map Char.toUpper⟩

/-- Python truthiness of an `Optional[str]`: `None` and `""` are falsy. -/
def truthy : Option String → Bool
  | none => false
  | some s => s ≠ ""

/-- `__get_alert_env_vars(event, params)`: the base ALERT_* entries, the
conditional namespace/node entries, the (dead, see `JobParams.env_var`)
append of caller-supplied `env_vars`, and one `ALERT_LABEL_*` entry per
alert label. -/
def get_alert_env_vars (event : PrometheusKubernetesAlert) (params : JobParams) :
    List EnvVar :=
  let alert_subject := event.get_alert_subject
  let alert_env_vars : List EnvVar :=
    [ ⟨"ALERT_NAME", some event.alert_name⟩,
      ⟨"ALERT_STATUS", some event.alert.status⟩,
      ⟨"ALERT_OBJ_KIND", alert_subject.subject_type_value⟩,
      ⟨"ALERT_OBJ_NAME", alert_subject.name⟩ ]
  let alert_env_vars :=
    if truthy alert_subject.«namespace» then
      alert_env_vars ++ [⟨"ALERT_OBJ_NAMESPACE", alert_subject.«namespace»⟩]
    else alert_env_vars
  let alert_env_vars :=
    if truthy alert_subject.node then
      alert_env_vars ++ [⟨"ALERT_OBJ_NODE", alert_subject.node⟩]
    else alert_env_vars
  let alert_env_vars :=
    if (params.env_var).isSome then
      alert_env_vars ++ (params.env_vars).getD []
    else alert_env_vars
  let label_vars :=
    event.alert.labels.map fun kv => EnvVar.mk ("ALERT_LABEL_" ++ pyUpper kv.1) (some kv.2)
  alert_env_vars ++ label_vars

/-- hikaru `Container` as populated by the action. -/
structure Container where
  name : String
  image : String
  command : List String
  env : List EnvVar
deriving DecidableEq, Repr

/-- The `Job` value the action builds (the fields it populates). -/
structure Job where
  metadata_name : String
  metadata_namespace : String
  containers : List Container
  serviceAccountName : Option String
  restartPolicy : String
  backoffLimit : Option Int
  activeDeadlineSeconds : Option Int
  ttlSecondsAfterFinished : Int
deriving DecidableEq, Repr

/-- An enrichment block: `MarkdownBlock` text or a `FileBlock` with a
filename and contents. -/
inductive Block where
  | markdown (text : String)
  | file (filename : String) (contents : String)
deriving DecidableEq, Repr

/-- A Python exception as the handler sees it: its class name and its
message (`str(e)`). -/
structure PyExn where
  ty : String
  msg : String
deriving DecidableEq, Repr

/-- One observable step of the action. -/
inductive Effect where
  | logInfo (msg : String)
  | createJob (job : Job)
  | enrich (blocks : List Block)
  | platformWait (timeout_secs : Int)
  | getSinglePod
  | fetchLogs
  | printOut (msg : String)
  | logWarning (msg : String)
deriving DecidableEq, Repr

/-- The platform's responses for the wait phase of one invocation:
what `wait_until_job_complete`, `job.get_single_pod()` and
`pod.get_logs()` return or raise. -/
structure Platform where
  waitResult : Except PyExn Unit
  podResult : Except PyExn Unit
  logsResult : Except PyExn String

/-- Text of the "created" notification:
`f"**Action Job Information** \n Created Job from alert: *{job_name}*."` -/
def createdMsg (job_name : String) : String :=
  "**Action Job Information** \n Created Job from alert: *" ++ job_name ++ "*."

/-- Text of the timeout diagnostic:
`f"Action Job {job_name} timed out. Could not fetch output"` -/
def timeoutMsg (job_name : String) : String :=
  "Action Job " ++ job_name ++ " timed out. Could not fetch output"

/-- Text of the generic-failure warning:
`f"Action Job stopped due to Exception {e}"` -/
def warnMsg (msg : String) : String :=
  "Action Job stopped due to Exception " ++ msg

/-- The `except Exception as e:` clause: print, then either a warning (for
messages other than the wait-condition message) or the timeout warning plus
a user-visible markdown enrichment. -/
def exceptClause (job_name : String) (e : PyExn) : List Effect :=
  Effect.printOut (e.msg ++ " " ++ e.msg) ::
  (if e.msg ≠ "Failed to reach wait condition" then
    [Effect.printOut "ERROR TRUE", Effect.logWarning (warnMsg e.msg)]
  else
    [Effect.logWarning (timeoutMsg job_name),
     Effect.enrich [Block.markdown (timeoutMsg job_name)]])

/-- The `if params.wait_for_completion:` body: `wait_until_job_complete`,
`job.get_single_pod()`, `pod.get_logs()` and the file enrichment, with any
raise routed to `exceptClause`.  (The `hikaru.from_dict` round-trip is a
pure data conversion and leaves no trace.) -/
def waitPhase (job_name : String) (params : JobParams) (plat : Platform) :
    List Effect :=
  Effect.platformWait params.completion_timeout ::
  match plat.waitResult with
  | .error e => exceptClause job_name e
  | .ok _ =>
    Effect.getSinglePod ::
    match plat.podResult with
    | .error e => exceptClause job_name e
    | .ok _ =>
      Effect.fetchLogs ::
      match plat.logsResult with
      | .error e => exceptClause job_name e
      | .ok out => [Effect.enrich [Block.file "job-runner-logs.txt" out]]

/-- The `Job` value built by `run_job_from_alert`: metadata name is the
sanitized `params.name`, the container keeps the raw `params.name`. -/
def mkJob (sanitize : String → String) (event : PrometheusKubernetesAlert)
    (params : JobParams) : Job :=
  { metadata_name := sanitize params.name
    metadata_namespace := params.«namespace»
    containers :=
      [ { name := params.name
          image := params.image
          command := params.command
          env := get_alert_env_vars event params } ]
    serviceAccountName := params.service_account
    restartPolicy := params.restart_policy
    backoffLimit := params.backoff_limit
    activeDeadlineSeconds := params.active_deadline_seconds
    ttlSecondsAfterFinished := params.job_ttl_after_finished }

/-- `run_job_from_alert(event, params)` as its trace of effects, given the
naming utility `sanitize` (`to_kubernetes_name`) and the platform's
responses. -/
def run_job_from_alert (sanitize : String → String)
    (event : PrometheusKubernetesAlert) (params : JobParams)
    (plat : Platform) : List Effect :=
  let job_name := sanitize params.name
  [ Effect.logInfo ("Running run_job_from alert action for alert " ++ event.alert_name),
    Effect.createJob (mkJob sanitize event params) ]
  ++ (if params.notify then
        [Effect.enrich [Block.markdown (createdMsg job_name)]]
      else [])
  ++ (if params.wait_for_completion then waitPhase job_name params plat else [])

/-- The first exception (if any) raised inside the `try` body, in program
order: by the wait, by `get_single_pod`, or by `get_logs`. -/
def waitPhaseError (plat : Platform) : Option PyExn :=
  match plat.waitResult with
  | .error e => some e
  | .ok _ =>
    match plat.podResult with
    | .error e => some e
    | .ok _ =>
      match plat.logsResult with
      | .error e => some e
      | .ok _ => none

/-- Recognises the log-fetch platform call in a trace. -/
def isFetchLogs : Effect → Bool
  | .fetchLogs => true
  | _ => false

/-- Recognises the job-creation platform call in a trace. -/
def isCreateJob : Effect → Bool
  | .createJob _ => true
  | _ => false

/-- Recognises enrichment effects in a trace. -/
def isEnrich : Effect → Bool
  | .enrich _ => true
  | _ => false

/-- Number of environment entries with the given name. -/
def countName (n : String) (vs : List EnvVar) : Nat :=
  (vs.filter fun v => v.name == n).length

/-! Sample inputs used by closed evaluations. -/

/-- A sample alert subject: a pod with a namespace and no node. -/
def subj0 : AlertSubject :=
  { subject_type_value := some "pod", name := some "mypod",
    «namespace» := some "ns1", node := some "node1" }

/-- A sample alert event with one label. -/
def ev0 : PrometheusKubernetesAlert :=
  { alert_name := "HighCPU",
    alert := { status := "firing", labels := [("foo", "bar")] },
    get_alert_subject := subj0 }

/-- Params with only the required fields (all defaults otherwise). -/
def pBase : JobParams := { image := "busybox", command := ["echo", "hi"] }

/-- Params that supply a caller environment variable. -/
def pEnv : JobParams :=
  { image := "busybox", command := ["echo", "hi"],
    env_vars := some [⟨"FOO", some "bar"⟩] }

/-- Params with an empty image and an empty command. -/
def pEmpty : JobParams := { image := "", command := [] }

/-- Params asking for a notification but no wait. -/
def pNotifyOnly : JobParams :=
  { image := "busybox", command := ["echo", "hi"],
    notify := true, wait_for_completion := false }

/-- A subject whose namespace and node are present but empty strings. -/
def subjEmptyNs : AlertSubject :=
  { subject_type_value := some "pod", name := some "mypod",
    «namespace» := some "", node := some "" }

/-- An event whose subject carries empty-string namespace and node. -/
def evEmptyNs : PrometheusKubernetesAlert :=
  { alert_name := "HighCPU", alert := { status := "firing", labels := [] },
    get_alert_subject := subjEmptyNs }

/-- An exception whose message is the wait-condition message. -/
def exnWaitCondition : PyExn :=
  { ty := "ApiException", msg := "Failed to reach wait condition" }

/-- An exception of the same class with a different message. -/
def exnOther : PyExn := { ty := "ApiException", msg := "boom" }

/-- A platform on which everything succeeds and the logs are "hi\n". -/
def platOk : Platform :=
  { waitResult := .ok (), podResult := .ok (), logsResult := .ok "hi\n" }

/-- A platform whose wait raises the wait-condition exception. -/
def platTimeout : Platform :=
  { waitResult := .error exnWaitCondition, podResult := .ok (), logsResult := .ok "" }

/-- A platform whose wait raises a generic exception. -/
def platFail : Platform :=
  { waitResult := .error exnOther, podResult := .ok (), logsResult := .ok "" }

/-! Helper lemmas. -/

lemma label_name_ne_namespace (s : String) :
    ("ALERT_LABEL_" ++ s) ≠ "ALERT_OBJ_NAMESPACE" := by
  intro h
  have h2 : ("ALERT_LABEL_" ++ s).data = "ALERT_OBJ_NAMESPACE".data :=
    congrArg String.data h
  rw [String.data_append] at h2
  simp [String.data] at h2

lemma label_name_ne_node (s : String) :
    ("ALERT_LABEL_" ++ s) ≠ "ALERT_OBJ_NODE" := by
  intro h
  have h2 : ("ALERT_LABEL_" ++ s).data = "ALERT_OBJ_NODE".data :=
    congrArg String.data h
  rw [String.data_append] at h2
  simp [String.data] at h2

lemma createdMsg_ne_timeoutMsg (j j' : String) : createdMsg j ≠ timeoutMsg j' := by
  intro h
  have h2 : (createdMsg j).data = (timeoutMsg j').data := congrArg String.data h
  simp only [createdMsg, timeoutMsg, String.data_append] at h2
  simp [String.data] at h2

/-- `__get_alert_env_vars` in flattened form: base entries, conditional
namespace and node entries, label entries.  (The caller `env_vars` branch
is dead, see `JobParams.env_var`.) -/
lemma get_alert_env_vars_eq (ev : PrometheusKubernetesAlert) (params : JobParams) :
    get_alert_env_vars ev params =
      [ ⟨"ALERT_NAME", some ev.alert_name⟩,
        ⟨"ALERT_STATUS", some ev.alert.status⟩,
        ⟨"ALERT_OBJ_KIND", ev.get_alert_subject.subject_type_value⟩,
        ⟨"ALERT_OBJ_NAME", ev.get_alert_subject.name⟩ ]
      ++ (if truthy ev.get_alert_subject.«namespace» then
            [⟨"ALERT_OBJ_NAMESPACE", ev.get_alert_subject.«namespace»⟩] else [])
      ++ (if truthy ev.get_alert_subject.node then
            [⟨"ALERT_OBJ_NODE", ev.get_alert_subject.node⟩] else [])
      ++ ev.alert.labels.map
            (fun kv => EnvVar.mk ("ALERT_LABEL_" ++ pyUpper kv.1) (some kv.2)) := by
  simp only [get_alert_env_vars, JobParams.env_var, Option.isSome_none,
    Bool.false_eq_true, if_false]
  split <;> split <;> simp

lemma filter_label_vars_eq_nil (n : String) (h : ∀ s, ("ALERT_LABEL_" ++ s) ≠ n)
    (l : List (String × String)) :
    ((l.map fun kv => EnvVar.mk ("ALERT_LABEL_" ++ pyUpper kv.1) (some kv.2)).filter
      fun v => v.name == n) = [] := by
  apply List.filter_eq_nil_iff.mpr
  intro a ha
  simp only [List.mem_map] at ha
  obtain ⟨kv, _, rfl⟩ := ha
  simp [h (pyUpper kv.1)]

/-- C1: the claim says caller-supplied `env_vars` entries are appended to the
environment when present; in the code the guarding condition reads the
nonexistent attribute `env_var`, so the entries are never appended: with
`env_vars = [("FOO","bar")]` the entry is absent and the output equals the
output for absent `env_vars`. -/
theorem c1_env_vars_not_appended :
    EnvVar.mk "FOO" (some "bar") ∉ get_alert_env_vars ev0 pEnv ∧
    get_alert_env_vars ev0 pEnv = get_alert_env_vars ev0 pBase := by
  decide

/-- C2 counterexample: two exceptions of the same class raised by the wait,
differing only in message, produce different user-visible outcomes (one
yields an enrichment, the other none), so the outcome does not depend only
on the exception's type. -/
theorem c2_message_match_counterexample :
    exnWaitCondition.ty = exnOther.ty ∧
    (run_job_from_alert id ev0 pBase platTimeout).any isEnrich = true ∧
    (run_job_from_alert id ev0 pBase platFail).any isEnrich = false := by
  decide

/-- C2 (amended): the handler distinguishes the timeout outcome by comparing
the exception's message `str(e)` with the literal
"Failed to reach wait condition"; the outcome depends only on the message,
never on the exception's type. -/
theorem c2_outcome_depends_only_on_message (job_name : String) (e e' : PyExn)
    (h : e.msg = e'.msg) :
    exceptClause job_name e = exceptClause job_name e' := by
  unfold exceptClause
  rw [h]

theorem c2_outcome_witness :
    exceptClause "j" ⟨"ApiException", "boom"⟩ = exceptClause "j" ⟨"ValueError", "boom"⟩ :=
  c2_outcome_depends_only_on_message "j" ⟨"ApiException", "boom"⟩ ⟨"ValueError", "boom"⟩ rfl

/-- C3 counterexample: with an empty image and an empty command the
invocation is not rejected — the job-creation platform call happens. -/
theorem c3_empty_config_not_rejected :
    (run_job_from_alert id ev0 pEmpty platOk).any isCreateJob = true := by
  decide

/-- C3 (amended): no emptiness validation exists; for a `JobParams` with an
empty image or an empty command the job is still built and submitted to the
platform (`job.create()` is reached, no `InvalidConfig` rejection). -/
theorem c3_no_emptiness_validation (sanitize : String → String)
    (ev : PrometheusKubernetesAlert) (params : JobParams) (plat : Platform)
    (_h : params.image = "" ∨ params.command = []) :
    Effect.createJob (mkJob sanitize ev params) ∈
      run_job_from_alert sanitize ev params plat := by
  simp [run_job_from_alert]

theorem c3_no_emptiness_validation_witness :
    Effect.createJob (mkJob id ev0 pEmpty) ∈ run_job_from_alert id ev0 pEmpty platOk :=
  c3_no_emptiness_validation id ev0 pEmpty platOk (Or.inl rfl)

/-- C4 counterexample: a subject whose namespace (and node) is present but
equal to the empty string gets no `ALERT_OBJ_NAMESPACE` (or
`ALERT_OBJ_NODE`) entry, against the claim's "if and only if the subject
has a namespace". -/
theorem c4_empty_namespace_counterexample :
    evEmptyNs.get_alert_subject.«namespace» = some "" ∧
    evEmptyNs.get_alert_subject.node = some "" ∧
    countName "ALERT_OBJ_NAMESPACE" (get_alert_env_vars evEmptyNs pBase) = 0 ∧
    countName "ALERT_OBJ_NODE" (get_alert_env_vars evEmptyNs pBase) = 0 := by
  decide

/-- C4 (amended): the environment always holds `ALERT_NAME`, `ALERT_STATUS`,
`ALERT_OBJ_KIND`, `ALERT_OBJ_NAME` with the alert's values, and holds an
`ALERT_OBJ_NAMESPACE` (resp. `ALERT_OBJ_NODE`) entry — exactly once, with
the exact value — if and only if the subject's namespace (resp. node) is
present and non-empty (Python truthiness). -/
theorem c4_alert_env_entries (ev : PrometheusKubernetesAlert) (params : JobParams) :
    EnvVar.mk "ALERT_NAME" (some ev.alert_name) ∈ get_alert_env_vars ev params ∧
    EnvVar.mk "ALERT_STATUS" (some ev.alert.status) ∈ get_alert_env_vars ev params ∧
    EnvVar.mk "ALERT_OBJ_KIND" ev.get_alert_subject.subject_type_value ∈
      get_alert_env_vars ev params ∧
    EnvVar.mk "ALERT_OBJ_NAME" ev.get_alert_subject.name ∈ get_alert_env_vars ev params ∧
    countName "ALERT_OBJ_NAMESPACE" (get_alert_env_vars ev params) =
      (if truthy ev.get_alert_subject.«namespace» then 1 else 0) ∧
    (truthy ev.get_alert_subject.«namespace» = true →
      EnvVar.mk "ALERT_OBJ_NAMESPACE" ev.get_alert_subject.«namespace» ∈
        get_alert_env_vars ev params) ∧
    countName "ALERT_OBJ_NODE" (get_alert_env_vars ev params) =
      (if truthy ev.get_alert_subject.node then 1 else 0) ∧
    (truthy ev.get_alert_subject.node = true →
      EnvVar.mk "ALERT_OBJ_NODE" ev.get_alert_subject.node ∈
        get_alert_env_vars ev params) := by
  rw [get_alert_env_vars_eq]
  refine ⟨by simp, by simp, by simp, by simp, ?_, by intro h; simp [h], ?_, by intro h; simp [h]⟩
  · simp only [countName, List.filter_append,
      filter_label_vars_eq_nil _ label_name_ne_namespace, List.length_append]
    split <;> split <;> simp
  · simp only [countName, List.filter_append,
      filter_label_vars_eq_nil _ label_name_ne_node, List.length_append]
    split <;> split <;> simp

theorem c4_alert_env_entries_witness :
    EnvVar.mk "ALERT_OBJ_NAMESPACE" (some "ns1") ∈ get_alert_env_vars ev0 pBase ∧
    EnvVar.mk "ALERT_OBJ_NODE" (some "node1") ∈ get_alert_env_vars ev0 pBase :=
  ⟨(c4_alert_env_entries ev0 pBase).2.2.2.2.2.1 (by decide),
   (c4_alert_env_entries ev0 pBase).2.2.2.2.2.2.2 (by decide)⟩

/-- C5: every alert label `(k, v)` yields an environment entry named
`ALERT_LABEL_` followed by the upper-cased label name, with value `v`, and
the builder is pure: rerunning it on the same inputs gives the same list. -/
theorem c5_label_env_vars (ev : PrometheusKubernetesAlert) (params : JobParams)
    (k v : String) (h : (k, v) ∈ ev.alert.labels) :
    EnvVar.mk ("ALERT_LABEL_" ++ pyUpper k) (some v) ∈ get_alert_env_vars ev params ∧
    get_alert_env_vars ev params = get_alert_env_vars ev params := by
  rw [get_alert_env_vars_eq]
  exact ⟨List.mem_append_right _ (List.mem_map_of_mem _ h), rfl⟩

theorem c5_label_env_vars_witness :
    EnvVar.mk ("ALERT_LABEL_" ++ pyUpper "foo") (some "bar") ∈
      get_alert_env_vars ev0 pBase ∧
    get_alert_env_vars ev0 pBase = get_alert_env_vars ev0 pBase :=
  c5_label_env_vars ev0 pBase "foo" "bar" (by decide)

lemma created_enrich_not_in_waitPhase (jn jn' : String) (params : JobParams)
    (plat : Platform) :
    Effect.enrich [Block.markdown (createdMsg jn)] ∉ waitPhase jn' params plat := by
  obtain ⟨w, p, l⟩ := plat
  cases w <;> cases p <;> cases l <;>
    simp [waitPhase, exceptClause, createdMsg_ne_timeoutMsg] <;>
    split <;> simp [createdMsg_ne_timeoutMsg]

/-- C6: with waiting requested and the platform reporting success before the
deadline (wait, pod lookup and log fetch all succeed), the action fetches
the logs exactly once and attaches them as a file block named
"job-runner-logs.txt". -/
theorem c6_success_attaches_logs (sanitize : String → String)
    (ev : PrometheusKubernetesAlert) (params : JobParams) (plat : Platform)
    (out : String)
    (hw : params.wait_for_completion = true)
    (h1 : plat.waitResult = .ok ()) (h2 : plat.podResult = .ok ())
    (h3 : plat.logsResult = .ok out) :
    ((run_job_from_alert sanitize ev params plat).filter isFetchLogs).length = 1 ∧
    Effect.enrich [Block.file "job-runner-logs.txt" out] ∈
      run_job_from_alert sanitize ev params plat := by
  cases hn : params.notify <;>
    simp [run_job_from_alert, waitPhase, hw, hn, h1, h2, h3, isFetchLogs,
      List.filter_append]

theorem c6_success_attaches_logs_witness :
    ((run_job_from_alert id ev0 pBase platOk).filter isFetchLogs).length = 1 ∧
    Effect.enrich [Block.file "job-runner-logs.txt" "hi\n"] ∈
      run_job_from_alert id ev0 pBase platOk :=
  c6_success_attaches_logs id ev0 pBase platOk "hi\n" rfl rfl rfl rfl

/-- C7: when the wait raises the wait-condition (timeout) exception, the
action attaches a markdown enrichment whose text names the job and says it
timed out, logs the same text, and never fetches logs. -/
theorem c7_timeout_enrichment_no_fetch (sanitize : String → String)
    (ev : PrometheusKubernetesAlert) (params : JobParams) (plat : Platform)
    (e : PyExn)
    (hw : params.wait_for_completion = true)
    (h1 : plat.waitResult = .error e)
    (hmsg : e.msg = "Failed to reach wait condition") :
    Effect.enrich [Block.markdown (timeoutMsg (sanitize params.name))] ∈
      run_job_from_alert sanitize ev params plat ∧
    Effect.logWarning (timeoutMsg (sanitize params.name)) ∈
      run_job_from_alert sanitize ev params plat ∧
    Effect.fetchLogs ∉ run_job_from_alert sanitize ev params plat := by
  cases hn : params.notify <;>
    simp [run_job_from_alert, waitPhase, exceptClause, hw, hn, h1, hmsg]

theorem c7_timeout_witness :
    Effect.enrich [Block.markdown (timeoutMsg (id pBase.name))] ∈
      run_job_from_alert id ev0 pBase platTimeout ∧
    Effect.logWarning (timeoutMsg (id pBase.name)) ∈
      run_job_from_alert id ev0 pBase platTimeout ∧
    Effect.fetchLogs ∉ run_job_from_alert id ev0 pBase platTimeout :=
  c7_timeout_enrichment_no_fetch id ev0 pBase platTimeout exnWaitCondition rfl rfl rfl

/-- C8: any failure during the wait phase whose message is not the
wait-condition message is logged at warning level with its detail, and the
wait phase attaches no enrichment block at all for it; the handler absorbs
the exception (the trace is total, nothing propagates). -/
theorem c8_generic_failure_warning_only (job_name : String) (params : JobParams)
    (plat : Platform) (e : PyExn)
    (h : waitPhaseError plat = some e)
    (hmsg : e.msg ≠ "Failed to reach wait condition") :
    Effect.logWarning (warnMsg e.msg) ∈ waitPhase job_name params plat ∧
    ∀ bs, Effect.enrich bs ∉ waitPhase job_name params plat := by
  obtain ⟨w, p, l⟩ := plat
  cases w with
  | error ew =>
    have he : ew = e := by simpa [waitPhaseError] using h
    subst he
    simp [waitPhase, exceptClause, hmsg]
  | ok uw =>
    cases p with
    | error ep =>
      have he : ep = e := by simpa [waitPhaseError] using h
      subst he
      simp [waitPhase, exceptClause, hmsg]
    | ok up =>
      cases l with
      | error el =>
        have he : el = e := by simpa [waitPhaseError] using h
        subst he
        simp [waitPhase, exceptClause, hmsg]
      | ok out => simp [waitPhaseError] at h

theorem c8_generic_failure_witness :
    Effect.logWarning (warnMsg "boom") ∈ waitPhase "robusta-action-job" pBase platFail ∧
    ∀ bs, Effect.enrich bs ∉ waitPhase "robusta-action-job" pBase platFail :=
  c8_generic_failure_warning_only "robusta-action-job" pBase platFail exnOther rfl
    (by decide)

/-- C9: a "created" notification naming the (sanitized) job name is in the
trace iff `notify` is true; it occurs exactly once; when `notify` is true it
comes immediately after the creation call, before any waiting; and with
`notify = true` and `wait_for_completion = false` the whole trace is the log
line, the creation and that single notification — nothing
completion-related follows. -/
theorem c9_created_notification_iff_notify (sanitize : String → String)
    (ev : PrometheusKubernetesAlert) (params : JobParams) (plat : Platform) :
    (Effect.enrich [Block.markdown (createdMsg (sanitize params.name))] ∈
        run_job_from_alert sanitize ev params plat ↔ params.notify = true) ∧
    (run_job_from_alert sanitize ev params plat).count
        (Effect.enrich [Block.markdown (createdMsg (sanitize params.name))]) =
      (if params.notify then 1 else 0) ∧
    (params.notify = true →
      (run_job_from_alert sanitize ev params plat).take 3 =
        [ Effect.logInfo ("Running run_job_from alert action for alert " ++ ev.alert_name),
          Effect.createJob (mkJob sanitize ev params),
          Effect.enrich [Block.markdown (createdMsg (sanitize params.name))] ]) ∧
    (params.notify = true → params.wait_for_completion = false →
      run_job_from_alert sanitize ev params plat =
        [ Effect.logInfo ("Running run_job_from alert action for alert " ++ ev.alert_name),
          Effect.createJob (mkJob sanitize ev params),
          Effect.enrich [Block.markdown (createdMsg (sanitize params.name))] ]) := by
  have hwp : (waitPhase (sanitize params.name) params plat).count
      (Effect.enrich [Block.markdown (createdMsg (sanitize params.name))]) = 0 :=
    List.count_eq_zero.mpr (created_enrich_not_in_waitPhase _ _ _ _)
  refine ⟨⟨?_, ?_⟩, ?_, ?_, ?_⟩
  · intro hmem
    cases hn : params.notify with
    | true => rfl
    | false =>
      cases hw : params.wait_for_completion <;>
        simp [run_job_from_alert, hn, hw] at hmem
      exact absurd hmem (created_enrich_not_in_waitPhase _ _ _ _)
  · intro hn
    simp [run_job_from_alert, hn]
  · cases hn : params.notify <;> cases hw : params.wait_for_completion <;>
      simp [run_job_from_alert, hn, hw, List.count_append, List.count_cons, hwp]
  · intro hn
    cases hw : params.wait_for_completion <;> simp [run_job_from_alert, hn, hw]
  · intro hn hw
    simp [run_job_from_alert, hn, hw]

theorem c9_created_notification_witness :
    run_job_from_alert id ev0 pNotifyOnly platOk =
      [ Effect.logInfo ("Running run_job_from alert action for alert " ++ ev0.alert_name),
        Effect.createJob (mkJob id ev0 pNotifyOnly),
        Effect.enrich [Block.markdown (createdMsg (id pNotifyOnly.name))] ] :=
  (c9_created_notification_iff_notify id ev0 pNotifyOnly platOk).2.2.2 rfl rfl

/-- C10: the sanitizer is applied to `params.name` for the Job's metadata
name and the "created" notification text, while the pod-template container
keeps the raw `params.name`; whenever the sanitizer changes the name, the
metadata name differs from every container name. -/
theorem c10_sanitizer_only_metadata_and_notification (sanitize : String → String)
    (ev : PrometheusKubernetesAlert) (params : JobParams) (plat : Platform) :
    (mkJob sanitize ev params).metadata_name = sanitize params.name ∧
    (mkJob sanitize ev params).containers.map Container.name = [params.name] ∧
    (params.notify = true →
      Effect.enrich [Block.markdown (createdMsg (sanitize params.name))] ∈
        run_job_from_alert sanitize ev params plat) ∧
    (sanitize params.name ≠ params.name →
      (mkJob sanitize ev params).metadata_name ∉
        (mkJob sanitize ev params).containers.map Container.name) := by
  refine ⟨rfl, rfl, ?_, ?_⟩
  · intro hn
    simp [run_job_from_alert, hn]
  · intro hne
    simp [mkJob, hne]

theorem c10_sanitizer_witness :
    (mkJob pyUpper ev0 pBase).metadata_name ∉
      (mkJob pyUpper ev0 pBase).containers.map Container.name ∧
    Effect.enrich [Block.markdown (createdMsg (pyUpper pNotifyOnly.name))] ∈
      run_job_from_alert pyUpper ev0 pNotifyOnly platOk :=
  ⟨(c10_sanitizer_only_metadata_and_notification pyUpper ev0 pBase platOk).2.2.2
      (by decide),
   (c10_sanitizer_only_metadata_and_notification pyUpper ev0 pNotifyOnly platOk).2.2.1
      rfl⟩
